import Mathlib

/-!
Shallow embedding of the transport core of the khulnasoft cloud SDK
(`services/client.go`): URL/host construction, request construction,
the request pipeline (`Do`, `DoRequest`), multipart form construction,
and client construction (`NewClient`).

Go strings are modelled as Lean `String`, Go maps as association lists,
Go `time` quantities as `Int` epoch seconds, fallible Go calls as
`Except Err`.  The HTTP transport and the token retriever are modelled
as explicit parameters / stored results so that the pipeline is a pure
function of its inputs.
-/

namespace Services

/-- Errors are carried as their message strings (Go `error` values made by
`errors.New` / `fmt.Errorf`). -/
abbrev Err := String

/-- Substring check over character lists: Go `strings.Contains(hay, needle)`
is `listInfixCheck needle.toList hay.toList`. -/
def listInfixCheck (needle : List Char) : List Char → Bool
  | [] => needle.isEmpty
  | h :: t => needle.isPrefixOf (h :: t) || listInfixCheck needle t

/-- Go `strings.Contains s sub`. -/
def goContains (s sub : String) : Bool :=
  listInfixCheck sub.toList s.toList

/-- Go `strings.HasPrefix s pre`. -/
def goStartsWith (s pre : String) : Bool :=
  pre.toList.isPrefixOf s.toList

/-- Go `strings.ContainsAny s chars`. -/
def goContainsAny (s chars : String) : Bool :=
  s.toList.any (fun ch => chars.toList.contains ch)

/-- Split a character list on a separator character (like Go's internal
splitting used to describe `path.Clean` components). -/
def splitOnChar (c : Char) : List Char → List (List Char)
  | [] => [[]]
  | x :: xs =>
    let r := splitOnChar c xs
    if x = c then [] :: r
    else
      match r with
      | [] => [[x]]
      | h :: t => (x :: h) :: t

/-- One step of lexical path cleaning: drop empty and `.` components,
resolve `..` against the stack (Go `path.Clean`, rules 1-4). -/
def cleanStep (rooted : Bool) (st : List String) (comp : String) : List String :=
  if comp = "" ∨ comp = "." then st
  else if comp = ".." then
    match st with
    | [] => if rooted then [] else [".."]
    | top :: rest => if top = ".." then comp :: st else rest
  else comp :: st

/-- Go `path.Clean`: shortest lexically equivalent path. -/
def goPathClean (p : String) : String :=
  let rooted := goStartsWith p "/"
  let comps := (splitOnChar '/' p.toList).map (fun l => String.mk l)
  let st := (comps.foldl (cleanStep rooted) []).reverse
  let out := String.intercalate "/" st
  if rooted then "/" ++ out
  else if out = "" then "." else out

/-- Go `path.Join`: skip leading empty elements, join with `/`, then clean;
all-empty input yields the empty string. -/
def goPathJoin (elems : List String) : String :=
  if elems.all (fun e => e = "") then ""
  else
    let joined := elems.foldl
      (fun buf e =>
        if buf = "" ∧ e = "" then buf
        else if buf = "" then e
        else buf ++ "/" ++ e) ""
    goPathClean joined

/-- A token snapshot (`idp.Context` as used by `client.go`: access token,
issuance epoch `StartTime`, validity `ExpiresIn` in seconds). -/
structure Context where
  accessToken : String
  startTime : Int
  expiresIn : Int
deriving Repr, DecidableEq

/-- An HTTP response, reduced to the fields the pipeline inspects. -/
structure Response where
  statusCode : Nat
  body : String
deriving Repr, DecidableEq

/-- Association-list lookup for header maps (`http.Header.Get`). -/
def headerGet : List (String × String) → String → Option String
  | [], _ => none
  | kv :: t, k => if kv.1 = k then some kv.2 else headerGet t k

/-- Go map indexing `m[k]`, defaulting to the empty string. -/
def headerGetD (hs : List (String × String)) (k : String) : String :=
  (headerGet hs k).getD ""

/-- Association-list update for header maps (`http.Header.Set`): replaces
any existing entry for the key, appending when absent. -/
def headerSet : List (String × String) → String → String → List (String × String)
  | [], k, v => [(k, v)]
  | kv :: t, k, v => if kv.1 = k then (k, v) :: headerSet t k v else kv :: headerSet t k v

/-- Increment a counter map entry, inserting `1` when absent
(`Request.IncrementErrorsByType`). -/
def mapIncr (m : List (String × Nat)) (k : String) : List (String × Nat) :=
  match m with
  | [] => [(k, 1)]
  | (k', v) :: rest => if k' = k then (k', v + 1) :: rest else (k', v) :: mapIncr rest k

/-- The wrapped outgoing request (`services.Request`): an `http.Request`
reduced to method/URL/headers/body, plus the attempt counter and the
errors-by-kind counter map. -/
structure Request where
  method : String
  url : String
  header : List (String × String)
  body : Option String
  numAttempts : Nat
  numErrorsByType : List (String × Nat)

/-- Go method `Request.IncrementErrorsByType`. -/
def Request.incrementErrorsByType (r : Request) (errType : String) : Request :=
  { r with numErrorsByType := mapIncr r.numErrorsByType errType }

/-- A response handler: the mandatory response capability plus the optional
transport-error capability (`ResponseHandler` / `ResponseOrErrorHandler`).
Handlers receive and return the threaded request (Go handlers mutate the
shared `*Request`) together with the response-or-error pair. -/
structure ResponseHandler where
  handleResponse : Request → Response → Request × Except Err Response
  handleRequestError : Option (Request → Err → Request × Except Err Response)

/-- The HTTP transport (`http.Client.Do`), as a pure function from the
outgoing request to a response or a transport error. -/
abbrev Transport := Request → Except Err Response

/-- The client (`services.BaseClient`).  The token retriever is stored as
the result its `GetTokenContext` call would produce; the mutex is not
modelled (the embedding is sequential). -/
structure BaseClient where
  defaultTenant : String
  rootDomain : String
  overrideHost : String
  scheme : String
  tokenContext : Option Context
  responseHandlers : List ResponseHandler
  tokenRetriever : Except Err Context
  tokenExpireWindow : Int
  clientVersion : String
  tenantScoped : Bool
  region : String

/-- A built URL (`net/url.URL`, the four fields `client.go` sets).  Query
values are carried as their already-encoded form: `none` stands for a nil
`url.Values` (encoded as the empty string). -/
structure URL where
  scheme : String
  host : String
  path : String
  rawQuery : String
deriving Repr, DecidableEq

/-- Modelled from the spec: the fixed agent string of the client
identification header (`UserAgent` in `client_info.go`, which is not part
of the sources in scope). -/
def UserAgent : String := "client-agent"

/-- Modelled from the spec: the SDK version string (`Version` in
`client_info.go`, which is not part of the sources in scope). -/
def Version : String := "1.0.0"

/-- Go method `BaseClient.NewRequest`: build the header map (Authorization when a
non-empty token is held, the client identification header, the JSON
content type default, then caller headers key-by-key) and wrap the
request with zeroed counters.  `http.NewRequest` itself is modelled as
always succeeding; its own failure modes (invalid method or URL) are out
of scope of the embedding. -/
def NewRequest (c : BaseClient) (httpMethod url : String) (body : Option String)
    (headers : List (String × String)) : Except Err Request :=
  let hdr : List (String × String) := []
  let hdr :=
    match c.tokenContext with
    | some tc =>
      if tc.accessToken.length > 0 then
        headerSet hdr "Authorization" ("Bearer " ++ tc.accessToken)
      else hdr
    | none => hdr
  let splunkClient := UserAgent ++ "/" ++ Version
  let splunkClient :=
    if c.clientVersion.length > 0 then splunkClient ++ "," ++ c.clientVersion
    else splunkClient
  let hdr := headerSet hdr "Splunk-Client" splunkClient
  let hdr := headerSet hdr "Content-Type" "application/json"
  let hdr := headers.foldl (fun h kv => headerSet h kv.1 kv.2) hdr
  Except.ok
    { method := httpMethod, url := url, header := hdr, body := body
      numAttempts := 0, numErrorsByType := [] }

/-- Go method `BaseClient.BuildHost`: the override host wins unconditionally;
otherwise `{prefixDot}{serviceCluster}.{rootDomain}`, falling back to the
`api` cluster, where `prefixDot` is empty or `appendToHost ++ "."`. -/
def BuildHost (c : BaseClient) (serviceCluster : String) (appendToHost : String) : String :=
  let pre := if appendToHost ≠ "" then appendToHost ++ "." else appendToHost
  if c.overrideHost ≠ "" then c.overrideHost
  else if serviceCluster ≠ "" then pre ++ serviceCluster ++ "." ++ c.rootDomain
  else pre ++ "api." ++ c.rootDomain

/-- Go method `BaseClient.BuildURLWithTenant`. -/
def BuildURLWithTenant (c : BaseClient) (tenant : String) (tenantScoped : Bool)
    (region : String) (queryValues : Option String) (serviceCluster : String)
    (urlPathParts : List String) : Except Err URL :=
  if tenant.length = 0 then
    Except.error "a non-empty tenant must be specified"
  else
    let pathWithTenant := goPathJoin (tenant :: urlPathParts)
    let appendToHost :=
      if tenantScoped = true ∧ region ≠ "" ∧ goContains pathWithTenant "system" = true then
        region
      else if tenantScoped = true ∧ ¬ goContains pathWithTenant "system" = true then
        tenant
      else ""
    Except.ok
      { scheme := c.scheme, host := BuildHost c serviceCluster appendToHost
        path := pathWithTenant, rawQuery := queryValues.getD "" }

/-- Go method `BaseClient.BuildURL`: delegates to `BuildURLWithTenant` with the
client defaults. -/
def BuildURL (c : BaseClient) (queryValues : Option String) (serviceCluster : String)
    (urlPathParts : List String) : Except Err URL :=
  BuildURLWithTenant c c.defaultTenant c.tenantScoped c.region queryValues
    serviceCluster urlPathParts

/-- The tenant-prepending step of `BuildURLFromPathParams`: for a rendered
path not starting with `/system/`, the default tenant becomes the leading
segment. -/
def finalRenderedPath (c : BaseClient) (renderedPath : String) : String :=
  if ¬ goStartsWith renderedPath "/system/" = true then
    "/" ++ c.defaultTenant ++ renderedPath
  else renderedPath

/-- Go method `BaseClient.BuildURLFromPathParams`, after the template has
rendered successfully: `renderedPath` is the output of executing the path
template (template parsing and execution are outside the embedding; the
claims are conditioned on successful rendering). -/
def BuildURLFromPathParamsRendered (c : BaseClient) (queryValues : Option String)
    (serviceCluster : String) (renderedPath : String) : Except Err URL :=
  let path := finalRenderedPath c renderedPath
  if c.tenantScoped = true ∧ c.region = "" ∧ goStartsWith path "/system/" = true then
    Except.error "region cannot be empty"
  else
    let appendToHost :=
      if c.tenantScoped = true ∧ c.region ≠ "" ∧ goStartsWith path "/system/" = true then
        "region-" ++ c.region
      else if c.tenantScoped = true ∧ ¬ goStartsWith path "/system/" = true then
        c.defaultTenant
      else ""
    Except.ok
      { scheme := c.scheme, host := BuildHost c serviceCluster appendToHost
        path := path, rawQuery := queryValues.getD "" }

/-- The response-handler chain of `BaseClient.Do`: on a transport error,
only error-capable handlers run and a cleared error returns immediately;
on a response, a handler-produced error short-circuits the chain. -/
def runHandlers : List ResponseHandler → Request → Except Err Response →
    Request × Except Err Response
  | [], req, res => (req, res)
  | h :: rest, req, res =>
    match res with
    | Except.error e =>
      match h.handleRequestError with
      | some f =>
        match f req e with
        | (req', Except.ok resp) => (req', Except.ok resp)
        | (req', Except.error e') => runHandlers rest req' (Except.error e')
      | none => runHandlers rest req (Except.error e)
    | Except.ok resp =>
      match h.handleResponse req resp with
      | (req', Except.error e') => (req', Except.error e')
      | (req', Except.ok resp') => runHandlers rest req' (Except.ok resp')

/-- The part of `BaseClient.Do` after the transport call returned: fast
path when no handlers are registered; otherwise record the ≥400 status
count and run the handler chain. -/
def doAfterTransport (c : BaseClient) (req : Request) (result : Except Err Response) :
    Request × Except Err Response :=
  if c.responseHandlers.isEmpty then (req, result)
  else
    let req :=
      match result with
      | Except.ok resp =>
        if 400 ≤ resp.statusCode then
          req.incrementErrorsByType (toString resp.statusCode)
        else req
      | Except.error _ => req
    runHandlers c.responseHandlers req result

/-- Go method `BaseClient.Do`: bump the attempt counter, execute the transport call,
then hand the outcome to `doAfterTransport`. -/
def Do (c : BaseClient) (transport : Transport) (req : Request) :
    Request × Except Err Response :=
  let req' := { req with numAttempts := req.numAttempts + 1 }
  doAfterTransport c req' (transport req')

/-- A request body (`RequestParams.Body`, an `interface{}`): raw bytes, a
multipart form-data payload, a body implementing `util.MethodMarshaler`,
or a generic JSON-marshallable value carried as its `json.Marshal`
result. -/
inductive Body where
  | bytes (content : String)
  | formData (key : String) (filename : String) (stream : String)
  | methodMarshaler (marshal : String → Except Err String)
  | jsonValue (marshalled : Except Err String)

/-- Go type `gdepservices.RequestParams` as consumed by `client.go`: method, URL
(already built and rendered by `URL.String()`), optional body, headers. -/
structure RequestParams where
  method : String
  url : String
  body : Option Body
  headers : List (String × String)

/-- The body-encoding dispatch of `DoRequest` for non-multipart bodies:
raw bytes verbatim, else the per-method marshaler, else `json.Marshal`
(whose result the `jsonValue` and `formData` cases carry; a form-data
struct reaching this generic branch marshals as a plain JSON object). -/
def encodeBody (method : String) (b : Body) : Except Err String :=
  match b with
  | Body.bytes content => Except.ok content
  | Body.formData _ _ _ => Except.ok "\x7b\x7d"
  | Body.methodMarshaler marshal => marshal method
  | Body.jsonValue res => res

/-- Go `mime/multipart`: replace each backslash and double quote in a
field name or filename by its escaped form. -/
def escapeQuotes (s : String) : String :=
  String.mk (s.toList.foldr
    (fun ch acc =>
      if ch = '\\' then '\\' :: '\\' :: acc
      else if ch = '"' then '\\' :: '"' :: acc
      else ch :: acc) [])

/-- The multipart body written by `multipart.Writer.CreateFormFile`
followed by `io.Copy` of the stream and `Writer.Close`: one file part
holding the stream bytes between the boundary delimiters. -/
def multipartBody (boundary key filename stream : String) : String :=
  "--" ++ boundary ++ "\r\n" ++
  "Content-Disposition: form-data; name=\"" ++ escapeQuotes key ++
  "\"; filename=\"" ++ escapeQuotes filename ++ "\"\r\n" ++
  "Content-Type: application/octet-stream\r\n\r\n" ++
  stream ++
  "\r\n--" ++ boundary ++ "--\r\n"

/-- Go method `multipart.Writer.FormDataContentType`: boundary-qualified content
type, quoting the boundary when it holds special characters. -/
def formDataContentType (boundary : String) : String :=
  let b :=
    if goContainsAny boundary "()<>@,;:\\\"/[]?= " = true then
      "\"" ++ boundary ++ "\""
    else boundary
  "multipart/form-data; boundary=" ++ b

/-- Go method `BaseClient.makeFormRequest`: fails unless the body is shaped as form
data; otherwise builds the request around the multipart body and sets the
boundary-qualified content type.  The boundary (random in Go) is an
explicit parameter. -/
def makeFormRequest (c : BaseClient) (boundary : String) (p : RequestParams) :
    Except Err Request :=
  match p.body with
  | some (Body.formData key filename stream) =>
    let body := multipartBody boundary key filename stream
    (match NewRequest c p.method p.url (some body) p.headers with
     | Except.error e => Except.error e
     | Except.ok req =>
       Except.ok { req with
         header := headerSet req.header "Content-Type" (formDataContentType boundary) })
  | _ => Except.error "bad request of form data"

/-- The request-construction phase of `DoRequest`: delegate to multipart
construction when the headers declare `multipart/form-data`, otherwise
encode the body (if any) and call `NewRequest`. -/
def buildRequestForParams (c : BaseClient) (boundary : String) (p : RequestParams) :
    Except Err Request :=
  if p.headers.length ≠ 0 ∧ headerGetD p.headers "Content-Type" = "multipart/form-data" then
    makeFormRequest c boundary p
  else
    match p.body with
    | some b =>
      (match encodeBody p.method b with
       | Except.error e => Except.error e
       | Except.ok content => NewRequest c p.method p.url (some content) p.headers)
    | none => NewRequest c p.method p.url none p.headers

/-- Modelled from the spec: `util.ParseHTTPStatusCodeInResponse` (not part
of the sources in scope) translates a ≥400 status into a typed error and
leaves successful responses untouched. -/
def parseHTTPStatusCodeInResponse (r : Response) : Except Err Response :=
  if 400 ≤ r.statusCode then
    Except.error ("http status error: " ++ toString r.statusCode)
  else Except.ok r

/-- The send phase of `DoRequest` (everything after the token-freshness
block): build the request, run `Do`, abort on error, else hand the
response to the status translator. -/
def doRequestSendResult (c : BaseClient) (transport : Transport) (boundary : String)
    (p : RequestParams) : Except Err Response :=
  match buildRequestForParams c boundary p with
  | Except.error e => Except.error e
  | Except.ok req =>
    match (Do c transport req).2 with
    | Except.error e => Except.error e
    | Except.ok resp => parseHTTPStatusCodeInResponse resp

/-- Go method `BaseClient.DoRequest`: refresh the token when
`now + tokenExpireWindow ≥ startTime + expiresIn` (a retriever error
aborts immediately with the client unchanged; otherwise the new snapshot
is installed), then run the send phase.  `now` is the current epoch in
seconds; a nil token context (which the Go code would dereference) is
read as an expired snapshot and is excluded by the theorems below. -/
def DoRequest (c : BaseClient) (transport : Transport) (boundary : String)
    (now : Int) (p : RequestParams) : BaseClient × Except Err Response :=
  let curEpoch := now + c.tokenExpireWindow
  let tc := c.tokenContext.getD { accessToken := "", startTime := 0, expiresIn := 0 }
  if tc.startTime + tc.expiresIn ≤ curEpoch then
    match c.tokenRetriever with
    | Except.error e => (c, Except.error e)
    | Except.ok ctx =>
      let c' := { c with tokenContext := some ctx }
      (c', doRequestSendResult c' transport boundary p)
  else (c, doRequestSendResult c transport boundary p)

/-- Go type `ConfigurableRetryConfig` (retry count, wait interval in milliseconds,
optional retry predicate over the response). -/
structure ConfigurableRetryConfig where
  retryNum : Nat
  interval : Nat
  shouldRetryFn : Option (Response → Bool)

/-- Go type `services.Config`: construction options for `NewClient`.  The token
retriever is carried as the result its `GetTokenContext` call would
produce (`none` = no retriever configured); timeouts and windows are in
seconds. -/
structure Config where
  tokenRetriever : Option (Except Err Context)
  token : String
  tenant : String
  host : String
  overrideHost : String
  scheme : String
  timeout : Int
  responseHandlers : List ResponseHandler
  retryRequests : Bool
  retryConfigurable : Option ConfigurableRetryConfig
  tokenExpireWindow : Int
  clientVersion : String
  tenantScoped : Bool
  region : String

/-- Modelled from the spec: the default fixed retry policy handler
(`DefaultRetryResponseHandler`, defined outside the sources in scope);
only its presence in the handler list matters to the claims. -/
def defaultRetryHandler : ResponseHandler :=
  { handleResponse := fun r resp => (r, Except.ok resp), handleRequestError := none }

/-- Modelled from the spec: the configurable retry policy handler
(`ConfigurableRetryResponseHandler`, defined outside the sources in
scope); only its presence in the handler list matters to the claims. -/
def configurableRetryHandler (_cfg : ConfigurableRetryConfig) : ResponseHandler :=
  { handleResponse := fun r resp => (r, Except.ok resp), handleRequestError := none }

/-- Go function `services.NewClient`: validate the host pair and the token-source
pair, apply defaults, install handlers (caller handlers only with a
static token; a retry handler is prepended when retries are enabled),
retrieve the initial token, and build the client. -/
def NewClient (config : Config) : Except Err BaseClient :=
  if config.host ≠ "" ∧ config.overrideHost ≠ "" then
    Except.error "either config.Host or config.OverrideHost may be set, setting both is invalid"
  else
    let rootDomain := if config.host ≠ "" then config.host else "scp.splunk.com"
    let overrideHost := config.overrideHost
    let scheme := if config.scheme ≠ "" then config.scheme else "https"
    let tokenExpireWindow := if config.tokenExpireWindow ≠ 0 then config.tokenExpireWindow else 60
    let clientVersion := config.clientVersion
    if (config.tokenRetriever.isSome = true ∧ config.token ≠ "") ∨
       (config.tokenRetriever.isNone = true ∧ config.token = "") then
      Except.error "either config.TokenRetriever or config.Token must be set, not both"
    else
      let retriever : Except Err Context :=
        if config.token ≠ "" then
          Except.ok { accessToken := config.token, startTime := 0, expiresIn := 0 }
        else
          -- the validity check above guarantees a retriever is present here
          config.tokenRetriever.getD (Except.error "no retriever")
      let handlers : List ResponseHandler :=
        if config.token ≠ "" then config.responseHandlers else []
      let handlers :=
        if config.retryRequests = true then
          match config.retryConfigurable with
          | none => defaultRetryHandler :: config.responseHandlers
          | some cfg => configurableRetryHandler cfg :: config.responseHandlers
        else handlers
      match retriever with
      | Except.error e =>
        Except.error ("service.NewClient: error retrieving token: " ++ e)
      | Except.ok ctx =>
        Except.ok
          { defaultTenant := config.tenant, rootDomain := rootDomain
            overrideHost := overrideHost, scheme := scheme
            tokenContext := some ctx, responseHandlers := handlers
            tokenRetriever := retriever, tokenExpireWindow := tokenExpireWindow
            clientVersion := clientVersion, tenantScoped := config.tenantScoped
            region := config.region }

/-- A concrete sample client used by the witness theorems below. -/
def hostClient : BaseClient :=
  { defaultTenant := "acme", rootDomain := "example.com", overrideHost := ""
    scheme := "https", tokenContext := none, responseHandlers := []
    tokenRetriever := Except.error "unused", tokenExpireWindow := 60
    clientVersion := "", tenantScoped := false, region := "" }

/-- A tenant-scoped sample client with an empty region, for the C4
witness. -/
def sysClient : BaseClient :=
  { hostClient with tenantScoped := true, region := "" }

/-- A configuration with both host options set, for the C6 witness. -/
def badHostConfig : Config :=
  { tokenRetriever := none, token := "tok", tenant := "acme", host := "h.example"
    overrideHost := "x.test", scheme := "", timeout := 0, responseHandlers := []
    retryRequests := false, retryConfigurable := none, tokenExpireWindow := 0
    clientVersion := "", tenantScoped := false, region := "" }

/-- A passthrough response handler, used to populate handler lists in the
witnesses. -/
def sampleHandler : ResponseHandler :=
  { handleResponse := fun r resp => (r, Except.ok resp), handleRequestError := none }

/-- A configuration with a token retriever, no static token, retries off,
and a non-empty handler list, for the C10 witness. -/
def retrieverConfig : Config :=
  { tokenRetriever := some (Except.ok { accessToken := "tk", startTime := 0, expiresIn := 100 })
    token := "", tenant := "acme", host := "", overrideHost := "", scheme := ""
    timeout := 0, responseHandlers := [sampleHandler], retryRequests := false
    retryConfigurable := none, tokenExpireWindow := 0, clientVersion := ""
    tenantScoped := false, region := "" }

/-- A transport returning status 404 for every request, for the C2
witness. -/
def t404 : Transport := fun _ => Except.ok { statusCode := 404, body := "" }

/-- A client with one passthrough response handler, for the C2 witness. -/
def handlerClient : BaseClient :=
  { hostClient with responseHandlers := [sampleHandler] }

/-- A fresh request with zeroed counters, for the C2 witness. -/
def req0 : Request :=
  { method := "GET", url := "u", header := [], body := none
    numAttempts := 0, numErrorsByType := [] }

/-- A client holding an expiring snapshot and a failing retriever, for
the C1 witness. -/
def staleClient : BaseClient :=
  { hostClient with
    tokenContext := some { accessToken := "t0", startTime := 0, expiresIn := 10 }
    tokenRetriever := Except.error "boom" }

/-- Empty request parameters, for the C1 witness. -/
def emptyParams : RequestParams :=
  { method := "GET", url := "u", body := none, headers := [] }

/-- A transport that always fails, for the C1 witness (it is never
reached there). -/
def noTransport : Transport := fun _ => Except.error "no transport"

/-- Request parameters declaring a multipart body, for the C9 witness. -/
def formParams : RequestParams :=
  { method := "POST", url := "u"
    body := some (Body.formData "file" "f.txt" "DATA")
    headers := [("Content-Type", "multipart/form-data")] }

/-- A sample client holding a non-empty access token, for the C8
witness. -/
def tokenClient : BaseClient :=
  { hostClient with
    tokenContext := some { accessToken := "tok123", startTime := 0, expiresIn := 100 } }
end Services

namespace Services

/-- Helper: a string of length zero is the empty string. -/
theorem string_eq_empty_of_length {s : String} (h : s.length = 0) : s = "" := by
  cases s with
  | mk data =>
    apply String.ext
    have : data.length = 0 := h
    simpa using List.eq_nil_of_length_eq_zero this

/-- Helper: string append is associative. -/
theorem strAppendAssoc (a b c : String) : a ++ b ++ c = a ++ (b ++ c) :=
  String.ext (by simp)

/-- C5: BuildHost returns the override host unconditionally when one is
configured; otherwise `{prefixDot}{serviceCluster}.{rootDomain}` for a
non-empty service cluster and `{prefixDot}api.{rootDomain}` for an empty
one, where the prefix is empty for an empty prefix value and `{value}.`
otherwise. -/
theorem buildHost_spec (c : BaseClient) (serviceCluster appendToHost : String) :
    (c.overrideHost ≠ "" → BuildHost c serviceCluster appendToHost = c.overrideHost) ∧
    (c.overrideHost = "" → serviceCluster ≠ "" →
      BuildHost c serviceCluster appendToHost =
        (if appendToHost = "" then "" else appendToHost ++ ".") ++
          serviceCluster ++ "." ++ c.rootDomain) ∧
    (c.overrideHost = "" → serviceCluster = "" →
      BuildHost c serviceCluster appendToHost =
        (if appendToHost = "" then "" else appendToHost ++ ".") ++
          "api." ++ c.rootDomain) := by
  refine ⟨?_, ?_, ?_⟩ <;> intros h1 <;>
    by_cases ha : appendToHost = "" <;>
      simp_all [BuildHost]

/-- C5 witness: with root domain `example.com`, cluster `catalog`, no
prefix and no override host, the host is `catalog.example.com`. -/
theorem buildHost_spec_witness :
    BuildHost hostClient "catalog" "" = "catalog.example.com" := by
  have h := (buildHost_spec hostClient "catalog" "").2.1 rfl (by decide)
  rw [h]
  decide

/-- C7: BuildURLWithTenant with an empty tenant returns an error for every
combination of the remaining inputs. -/
theorem buildURLWithTenant_empty_tenant (c : BaseClient) (tenantScoped : Bool)
    (region : String) (queryValues : Option String) (serviceCluster : String)
    (urlPathParts : List String) :
    BuildURLWithTenant c "" tenantScoped region queryValues serviceCluster urlPathParts =
      Except.error "a non-empty tenant must be specified" := by
  simp [BuildURLWithTenant]

/-- C3: BuildURLWithTenant with a non-empty tenant succeeds; the URL path
is the tenant joined with the supplied path segments, and the host prefix
passed to BuildHost is the region when tenant-scoped with a non-empty
region and a path containing `system`, the tenant when tenant-scoped and
the path does not contain `system`, and empty otherwise (in particular
when not tenant-scoped, or when the region is empty and the path contains
`system`). -/
theorem buildURLWithTenant_spec (c : BaseClient) (tenant : String) (tenantScoped : Bool)
    (region : String) (queryValues : Option String) (serviceCluster : String)
    (urlPathParts : List String) (h : tenant ≠ "") :
    ∃ u : URL,
      BuildURLWithTenant c tenant tenantScoped region queryValues serviceCluster
        urlPathParts = Except.ok u ∧
      u.path = goPathJoin (tenant :: urlPathParts) ∧
      (tenantScoped = true → region ≠ "" → goContains u.path "system" = true →
        u.host = BuildHost c serviceCluster region) ∧
      (tenantScoped = true → goContains u.path "system" = false →
        u.host = BuildHost c serviceCluster tenant) ∧
      (tenantScoped = false → u.host = BuildHost c serviceCluster "") ∧
      (region = "" → goContains u.path "system" = true →
        u.host = BuildHost c serviceCluster "") := by
  have hlen : ¬ tenant.length = 0 := fun hl => h (string_eq_empty_of_length hl)
  refine ⟨{ scheme := c.scheme
            host := BuildHost c serviceCluster
              (if tenantScoped = true ∧ region ≠ "" ∧
                  goContains (goPathJoin (tenant :: urlPathParts)) "system" = true then
                region
               else if tenantScoped = true ∧
                  ¬ goContains (goPathJoin (tenant :: urlPathParts)) "system" = true then
                tenant
               else "")
            path := goPathJoin (tenant :: urlPathParts)
            rawQuery := queryValues.getD "" }, ?_, rfl, ?_, ?_, ?_, ?_⟩
  · unfold BuildURLWithTenant
    rw [if_neg hlen]
  · intro hts hr hc
    show BuildHost c serviceCluster _ = _
    rw [if_pos ⟨hts, hr, hc⟩]
  · intro hts hc
    show BuildHost c serviceCluster _ = _
    rw [if_neg (by simp [hc]), if_pos ⟨hts, by simp [hc]⟩]
  · intro hts
    show BuildHost c serviceCluster _ = _
    rw [if_neg (by simp [hts]), if_neg (by simp [hts])]
  · intro hr hc
    show BuildHost c serviceCluster _ = _
    rw [if_neg (by simp [hr]), if_neg (by simp [hc])]

/-- C3 witness: tenant `acme`, tenant-scoped, region `us1`, path segment
`system/config`: the host prefix is the region `us1`. -/
theorem buildURLWithTenant_spec_witness :
    (BuildURLWithTenant hostClient "acme" true "us1" none "" ["system/config"]).map
      URL.host = Except.ok (BuildHost hostClient "" "us1") := by
  obtain ⟨u, hok, hpath, h3, -, -, -⟩ :=
    buildURLWithTenant_spec hostClient "acme" true "us1" none "" ["system/config"]
      (by decide)
  rw [hok]
  show Except.ok u.host = _
  exact congrArg Except.ok (h3 rfl (by decide) (by rw [hpath]; decide))

/-- C4: for the template URL builder (on a successfully rendered path):
non-system rendered paths get the default tenant prepended; the call
fails with `region cannot be empty` exactly when the client is
tenant-scoped, the (post-prepending) path starts with `/system/`, and the
region is empty; otherwise the host prefix is `region-{region}` for
system paths when tenant-scoped, the default tenant for non-system paths
when tenant-scoped, and empty when not tenant-scoped. -/
theorem buildURLFromPathParams_spec (c : BaseClient) (queryValues : Option String)
    (serviceCluster : String) (renderedPath : String) :
    (goStartsWith renderedPath "/system/" = false →
      ∀ u, BuildURLFromPathParamsRendered c queryValues serviceCluster renderedPath =
          Except.ok u →
        u.path = "/" ++ c.defaultTenant ++ renderedPath) ∧
    (BuildURLFromPathParamsRendered c queryValues serviceCluster renderedPath =
        Except.error "region cannot be empty" ↔
      (c.tenantScoped = true ∧
        goStartsWith (finalRenderedPath c renderedPath) "/system/" = true ∧
        c.region = "")) ∧
    (c.tenantScoped = true → c.region ≠ "" →
      goStartsWith (finalRenderedPath c renderedPath) "/system/" = true →
      BuildURLFromPathParamsRendered c queryValues serviceCluster renderedPath =
        Except.ok { scheme := c.scheme
                    host := BuildHost c serviceCluster ("region-" ++ c.region)
                    path := finalRenderedPath c renderedPath
                    rawQuery := queryValues.getD "" }) ∧
    (c.tenantScoped = true →
      goStartsWith (finalRenderedPath c renderedPath) "/system/" = false →
      BuildURLFromPathParamsRendered c queryValues serviceCluster renderedPath =
        Except.ok { scheme := c.scheme
                    host := BuildHost c serviceCluster c.defaultTenant
                    path := finalRenderedPath c renderedPath
                    rawQuery := queryValues.getD "" }) ∧
    (c.tenantScoped = false →
      BuildURLFromPathParamsRendered c queryValues serviceCluster renderedPath =
        Except.ok { scheme := c.scheme
                    host := BuildHost c serviceCluster ""
                    path := finalRenderedPath c renderedPath
                    rawQuery := queryValues.getD "" }) := by
  refine ⟨?_, ?_, ?_, ?_, ?_⟩
  · intro hrp u hu
    have hfp : finalRenderedPath c renderedPath = "/" ++ c.defaultTenant ++ renderedPath := by
      simp [finalRenderedPath, hrp]
    simp only [BuildURLFromPathParamsRendered] at hu
    by_cases hcond : c.tenantScoped = true ∧ c.region = "" ∧
        goStartsWith (finalRenderedPath c renderedPath) "/system/" = true
    · rw [if_pos hcond] at hu
      exact Except.noConfusion hu
    · rw [if_neg hcond] at hu
      injection hu with h
      rw [← h]
      exact hfp
  · by_cases hcond : c.tenantScoped = true ∧ c.region = "" ∧
        goStartsWith (finalRenderedPath c renderedPath) "/system/" = true
    · constructor
      · intro _
        exact ⟨hcond.1, hcond.2.2, hcond.2.1⟩
      · intro _
        simp only [BuildURLFromPathParamsRendered]
        rw [if_pos hcond]
    · constructor
      · intro hl
        simp only [BuildURLFromPathParamsRendered] at hl
        rw [if_neg hcond] at hl
        exact Except.noConfusion hl
      · intro hr
        exact absurd ⟨hr.1, hr.2.2, hr.2.1⟩ hcond
  · intro hts hr hp
    have hcond : ¬(c.tenantScoped = true ∧ c.region = "" ∧
        goStartsWith (finalRenderedPath c renderedPath) "/system/" = true) := by
      rintro ⟨-, h2, -⟩
      exact hr h2
    simp only [BuildURLFromPathParamsRendered]
    rw [if_neg hcond, if_pos ⟨hts, hr, hp⟩]
  · intro hts hp
    have hcond : ¬(c.tenantScoped = true ∧ c.region = "" ∧
        goStartsWith (finalRenderedPath c renderedPath) "/system/" = true) := by
      rintro ⟨-, -, h3⟩
      rw [hp] at h3
      exact Bool.noConfusion h3
    simp only [BuildURLFromPathParamsRendered]
    rw [if_neg hcond, if_neg (by simp [hp]), if_pos ⟨hts, by simp [hp]⟩]
  · intro hts
    simp only [BuildURLFromPathParamsRendered]
    rw [if_neg (by simp [hts]), if_neg (by simp [hts]), if_neg (by simp [hts])]

/-- C4 witness: tenant-scoped, empty region, rendered path `/system/foo`:
the call fails with `region cannot be empty`. -/
theorem buildURLFromPathParams_spec_witness :
    BuildURLFromPathParamsRendered sysClient none "" "/system/foo" =
      Except.error "region cannot be empty" := by
  have h := (buildURLFromPathParams_spec sysClient none "" "/system/foo").2.1
  exact h.mpr ⟨rfl, by decide, rfl⟩

/-- Helper: everything that holds of a successfully constructed client
(shape of `NewClient` on the success path). -/
theorem newClient_ok_elim (config : Config) (c : BaseClient)
    (hc : NewClient config = Except.ok c) :
    ¬(config.host ≠ "" ∧ config.overrideHost ≠ "") ∧
    ¬((config.tokenRetriever.isSome = true ∧ config.token ≠ "") ∨
      (config.tokenRetriever.isNone = true ∧ config.token = "")) ∧
    c.overrideHost = config.overrideHost ∧
    c.rootDomain = (if config.host ≠ "" then config.host else "scp.splunk.com") ∧
    c.responseHandlers =
      (if config.retryRequests = true then
        (match config.retryConfigurable with
         | none => defaultRetryHandler :: config.responseHandlers
         | some cfg => configurableRetryHandler cfg :: config.responseHandlers)
       else if config.token ≠ "" then config.responseHandlers else []) := by
  simp only [NewClient] at hc
  split at hc
  next h1 => exact Except.noConfusion hc
  next h1 =>
    split at hc
    next h2 => exact Except.noConfusion hc
    next h2 =>
      split at hc
      next e heq => exact Except.noConfusion hc
      next ctx heq =>
        injection hc with hcc
        subst hcc
        exact ⟨h1, h2, rfl, rfl, rfl⟩

/-- C6: NewClient fails with an error when both a root-domain host and an
override host are configured, or when both or neither of the static token
and the token retriever are configured; a successfully constructed client
comes from a configuration with exactly one token source and at most one
of the two host options (the root domain stays the default whenever the
override host is set). -/
theorem newClient_spec (config : Config) :
    (config.host ≠ "" → config.overrideHost ≠ "" →
      NewClient config = Except.error
        "either config.Host or config.OverrideHost may be set, setting both is invalid") ∧
    (config.tokenRetriever.isSome = true → config.token ≠ "" →
      NewClient config = Except.error
        "either config.TokenRetriever or config.Token must be set, not both" ∨
      NewClient config = Except.error
        "either config.Host or config.OverrideHost may be set, setting both is invalid") ∧
    (config.tokenRetriever = none → config.token = "" →
      NewClient config = Except.error
        "either config.TokenRetriever or config.Token must be set, not both" ∨
      NewClient config = Except.error
        "either config.Host or config.OverrideHost may be set, setting both is invalid") ∧
    (∀ c, NewClient config = Except.ok c →
      (config.token ≠ "" ↔ config.tokenRetriever = none) ∧
      ¬(config.host ≠ "" ∧ config.overrideHost ≠ "") ∧
      (c.overrideHost ≠ "" → c.rootDomain = "scp.splunk.com")) := by
  refine ⟨?_, ?_, ?_, ?_⟩
  · intro h1 h2
    simp only [NewClient]
    rw [if_pos ⟨h1, h2⟩]
  · intro hs ht
    by_cases hh : config.host ≠ "" ∧ config.overrideHost ≠ ""
    · right
      simp only [NewClient]
      rw [if_pos hh]
    · left
      simp only [NewClient]
      rw [if_neg hh, if_pos (Or.inl ⟨hs, ht⟩)]
  · intro hn ht
    by_cases hh : config.host ≠ "" ∧ config.overrideHost ≠ ""
    · right
      simp only [NewClient]
      rw [if_pos hh]
    · left
      simp only [NewClient]
      rw [if_neg hh, if_pos (Or.inr ⟨by simp [hn], ht⟩)]
  · intro c hc
    obtain ⟨h1, h2, hov, hroot, -⟩ := newClient_ok_elim config c hc
    refine ⟨?_, h1, ?_⟩
    · cases hr : config.tokenRetriever with
      | none =>
        constructor
        · intro _
          rfl
        · intro _ habs
          exact h2 (Or.inr ⟨by simp [hr], habs⟩)
      | some r =>
        constructor
        · intro htok
          exact absurd (Or.inl ⟨by simp [hr], htok⟩) h2
        · intro habs
          exact Option.noConfusion habs
    · intro hov'
      rw [hov] at hov'
      by_cases hh : config.host = ""
      · rw [hroot, if_neg (by simp [hh])]
      · exact absurd ⟨hh, hov'⟩ h1

/-- C6 witness: a configuration with both a host and an override host
fails fast with the host-conflict error. -/
theorem newClient_spec_witness :
    NewClient badHostConfig = Except.error
      "either config.Host or config.OverrideHost may be set, setting both is invalid" :=
  (newClient_spec badHostConfig).1 (by decide) (by decide)

/-- C10: with a token retriever configured (no static token) and retries
disabled, the constructed client has an empty response-handler list even
when the configuration supplies handlers; caller-supplied handlers end up
installed only when a static token is given or retries are enabled. -/
theorem newClient_handlers_gating (config : Config) :
    (config.tokenRetriever.isSome = true → config.token = "" →
      config.retryRequests = false →
      ∀ c, NewClient config = Except.ok c → c.responseHandlers = []) ∧
    (∀ c, NewClient config = Except.ok c → c.responseHandlers ≠ [] →
      config.token ≠ "" ∨ config.retryRequests = true) := by
  constructor
  · intro _ ht hr c hc
    obtain ⟨-, -, -, -, hresp⟩ := newClient_ok_elim config c hc
    rw [hresp, if_neg (by simp [hr]), if_neg (by simp [ht])]
  · intro c hc hne
    obtain ⟨-, -, -, -, hresp⟩ := newClient_ok_elim config c hc
    by_cases hr : config.retryRequests = true
    · exact Or.inr hr
    · by_cases ht : config.token ≠ ""
      · exact Or.inl ht
      · exfalso
        apply hne
        rw [hresp, if_neg hr, if_neg ht]

/-- C10 witness: constructing from `retrieverConfig` (which supplies a
non-empty handler list) yields a client with no response handlers. -/
theorem newClient_handlers_gating_witness :
    (NewClient retrieverConfig).map (fun c => c.responseHandlers) = Except.ok [] := by
  have h1 := (newClient_handlers_gating retrieverConfig).1 rfl rfl rfl
  have hc : NewClient retrieverConfig =
      Except.ok { defaultTenant := "acme", rootDomain := "scp.splunk.com"
                  overrideHost := "", scheme := "https"
                  tokenContext := some { accessToken := "tk", startTime := 0, expiresIn := 100 }
                  responseHandlers := []
                  tokenRetriever := Except.ok { accessToken := "tk", startTime := 0, expiresIn := 100 }
                  tokenExpireWindow := 60, clientVersion := "", tenantScoped := false
                  region := "" } := rfl
  rw [hc]
  exact congrArg Except.ok (h1 _ hc)

/-- Helper: looking up the key just set yields the value just set. -/
theorem headerGet_set_self (hs : List (String × String)) (k v : String) :
    headerGet (headerSet hs k v) k = some v := by
  induction hs with
  | nil => simp [headerSet, headerGet]
  | cons kv t ih =>
    by_cases hk : kv.1 = k
    · simp [headerSet, headerGet, hk]
    · simp [headerSet, headerGet, hk, ih]

/-- Helper: setting one key leaves lookups of other keys unchanged. -/
theorem headerGet_set_other (hs : List (String × String)) (k k' v : String)
    (h : k' ≠ k) :
    headerGet (headerSet hs k v) k' = headerGet hs k' := by
  induction hs with
  | nil => simp [headerSet, headerGet, Ne.symm h]
  | cons kv t ih =>
    by_cases hk : kv.1 = k
    · simp [headerSet, headerGet, hk, Ne.symm h, ih]
    · by_cases hk' : kv.1 = k'
      · simp [headerSet, headerGet, hk, hk', h]
      · simp [headerSet, headerGet, hk, hk', ih]

/-- Helper: folding header entries none of which carry the key `k` leaves
lookups of `k` unchanged. -/
theorem headerGet_fold_not_mem :
    ∀ (hs acc : List (String × String)) (k : String), headerGet hs k = none →
      headerGet (hs.foldl (fun h kv => headerSet h kv.1 kv.2) acc) k =
        headerGet acc k := by
  intro hs
  induction hs with
  | nil =>
    intro acc k _
    rfl
  | cons kv t ih =>
    intro acc k hnone
    have h1 : ¬ kv.1 = k := by
      intro hh
      simp [headerGet, hh] at hnone
    have h2 : headerGet t k = none := by
      simpa [headerGet, h1] using hnone
    rw [List.foldl_cons, ih _ k h2,
      headerGet_set_other _ _ _ _ (fun hh => h1 hh.symm)]

/-- Helper: a key absent from the key list looks up to `none`. -/
theorem headerGet_eq_none_of_not_key (t : List (String × String)) (k : String)
    (h : k ∉ t.map Prod.fst) : headerGet t k = none := by
  induction t with
  | nil => rfl
  | cons kv t' ih =>
    simp only [List.map_cons, List.mem_cons] at h
    push_neg at h
    have h1 : ¬ kv.1 = k := fun hh => h.1 hh.symm
    simp [headerGet, h1, ih h.2]

/-- Helper: folding header entries with pairwise-distinct keys makes each
entry's key look up to that entry's value. -/
theorem headerGet_fold_mem :
    ∀ (hs acc : List (String × String)) (k v : String),
      (hs.map Prod.fst).Nodup → (k, v) ∈ hs →
      headerGet (hs.foldl (fun h kv => headerSet h kv.1 kv.2) acc) k = some v := by
  intro hs
  induction hs with
  | nil =>
    intro acc k v _ hmem
    cases hmem
  | cons kv t ih =>
    intro acc k v hnd hmem
    rw [List.foldl_cons]
    rcases List.mem_cons.mp hmem with heq | hmem'
    · subst heq
      simp only [List.map_cons] at hnd
      have hkt : headerGet t k = none :=
        headerGet_eq_none_of_not_key t k (List.nodup_cons.mp hnd).1
      rw [headerGet_fold_not_mem t _ k hkt]
      exact headerGet_set_self acc k v
    · simp only [List.map_cons] at hnd
      exact ih _ k v (List.nodup_cons.mp hnd).2 hmem'

/-- C8: every request produced by NewRequest (when the caller headers do
not themselves carry the Authorization or client-identification keys)
carries `Authorization: Bearer {token}` exactly when the client holds a
non-empty access token, carries the client-identification header built
from the agent string and SDK version with the caller client version
comma-appended when present, defaults `Content-Type` to
`application/json` unless a caller header overrides it, lets caller
headers override key-by-key, and starts with zeroed counters. -/
theorem newRequest_spec (c : BaseClient) (httpMethod url : String) (body : Option String)
    (headers : List (String × String))
    (hauth : headerGet headers "Authorization" = none)
    (hsc : headerGet headers "Splunk-Client" = none) :
    ∀ r, NewRequest c httpMethod url body headers = Except.ok r →
      r.numAttempts = 0 ∧ r.numErrorsByType = [] ∧
      r.method = httpMethod ∧ r.url = url ∧ r.body = body ∧
      (∀ tc, c.tokenContext = some tc → tc.accessToken ≠ "" →
        headerGet r.header "Authorization" = some ("Bearer " ++ tc.accessToken)) ∧
      (c.tokenContext = none → headerGet r.header "Authorization" = none) ∧
      (∀ tc, c.tokenContext = some tc → tc.accessToken = "" →
        headerGet r.header "Authorization" = none) ∧
      headerGet r.header "Splunk-Client" =
        some (if c.clientVersion = "" then UserAgent ++ "/" ++ Version
              else (UserAgent ++ "/" ++ Version) ++ "," ++ c.clientVersion) ∧
      (headerGet headers "Content-Type" = none →
        headerGet r.header "Content-Type" = some "application/json") ∧
      ((headers.map Prod.fst).Nodup →
        ∀ k v, (k, v) ∈ headers → headerGet r.header k = some v) := by
  intro r hr
  simp only [NewRequest] at hr
  injection hr with h
  subst h
  refine ⟨rfl, rfl, rfl, rfl, rfl, ?_, ?_, ?_, ?_, ?_, ?_⟩
  · intro tc hctx htok
    show headerGet (headers.foldl _ _) "Authorization" = _
    rw [headerGet_fold_not_mem headers _ "Authorization" hauth,
      headerGet_set_other _ _ _ _ (by decide),
      headerGet_set_other _ _ _ _ (by decide)]
    simp only [hctx]
    have hlen : tc.accessToken.length > 0 :=
      Nat.pos_of_ne_zero (fun h0 => htok (string_eq_empty_of_length h0))
    rw [if_pos hlen]
    exact headerGet_set_self [] "Authorization" _
  · intro hctx
    show headerGet (headers.foldl _ _) "Authorization" = _
    rw [headerGet_fold_not_mem headers _ "Authorization" hauth,
      headerGet_set_other _ _ _ _ (by decide),
      headerGet_set_other _ _ _ _ (by decide)]
    simp only [hctx]
    rfl
  · intro tc hctx htok
    show headerGet (headers.foldl _ _) "Authorization" = _
    rw [headerGet_fold_not_mem headers _ "Authorization" hauth,
      headerGet_set_other _ _ _ _ (by decide),
      headerGet_set_other _ _ _ _ (by decide)]
    simp only [hctx]
    rw [if_neg (by simp [htok])]
    rfl
  · show headerGet (headers.foldl _ _) "Splunk-Client" = _
    rw [headerGet_fold_not_mem headers _ "Splunk-Client" hsc,
      headerGet_set_other _ _ _ _ (by decide),
      headerGet_set_self]
    by_cases hcv : c.clientVersion = ""
    · rw [if_pos hcv, if_neg (by simp [hcv])]
    · have hlen : c.clientVersion.length > 0 :=
        Nat.pos_of_ne_zero (fun h0 => hcv (string_eq_empty_of_length h0))
      rw [if_neg hcv, if_pos hlen]
  · intro hct
    show headerGet (headers.foldl _ _) "Content-Type" = _
    rw [headerGet_fold_not_mem headers _ "Content-Type" hct, headerGet_set_self]
  · intro hnd k v hmem
    exact headerGet_fold_mem headers _ k v hnd hmem

/-- C2: Do increments the attempt counter by exactly one before the
transport call executes; with no registered handlers the transport result
is returned unchanged with no error-by-kind recording; with handlers
registered and a transport success of status at least 400, the
error-by-kind counter keyed by the decimal status text is incremented
before the handler chain runs. -/
theorem do_spec (c : BaseClient) (transport : Transport) (req : Request) :
    Do c transport req =
      doAfterTransport c { req with numAttempts := req.numAttempts + 1 }
        (transport { req with numAttempts := req.numAttempts + 1 }) ∧
    (c.responseHandlers = [] →
      Do c transport req =
        ({ req with numAttempts := req.numAttempts + 1 },
         transport { req with numAttempts := req.numAttempts + 1 })) ∧
    (∀ resp, c.responseHandlers ≠ [] →
      transport { req with numAttempts := req.numAttempts + 1 } = Except.ok resp →
      400 ≤ resp.statusCode →
      Do c transport req =
        runHandlers c.responseHandlers
          { req with numAttempts := req.numAttempts + 1
                     numErrorsByType := mapIncr req.numErrorsByType (toString resp.statusCode) }
          (Except.ok resp)) := by
  refine ⟨rfl, ?_, ?_⟩
  · intro hre
    simp [Do, doAfterTransport, hre]
  · intro resp hne htr hcode
    simp only [Do, doAfterTransport, htr]
    rw [if_neg (by simpa [List.isEmpty_iff] using hne), if_pos hcode]
    rfl

/-- C2 witness: with one handler and a 404 transport result, Do runs the
chain on the request with one attempt and one recorded `404` error. -/
theorem do_spec_witness :
    Do handlerClient t404 req0 =
      runHandlers [sampleHandler]
        { method := "GET", url := "u", header := [], body := none
          numAttempts := 1, numErrorsByType := [("404", 1)] }
        (Except.ok { statusCode := 404, body := "" }) := by
  have h := (do_spec handlerClient t404 req0).2.2
    { statusCode := 404, body := "" } (by simp [handlerClient]) rfl (by decide)
  simpa [handlerClient, req0, mapIncr] using h

/-- Helper: the send phase reads only the token context, the client
version, and the handler list of the client. -/
theorem doRequestSendResult_congr (c₁ c₂ : BaseClient) (t : Transport) (b : String)
    (p : RequestParams)
    (h1 : c₁.tokenContext = c₂.tokenContext)
    (h2 : c₁.clientVersion = c₂.clientVersion)
    (h3 : c₁.responseHandlers = c₂.responseHandlers) :
    doRequestSendResult c₁ t b p = doRequestSendResult c₂ t b p := by
  cases c₁
  cases c₂
  dsimp only at h1 h2 h3
  subst h1
  subst h2
  subst h3
  rfl

/-- C1: DoRequest refreshes the token exactly when the expiry check
fires: when `now + tokenExpireWindow` is before `startTime + expiresIn`,
the retriever is never consulted (the result is the same for every stored
retriever) and the snapshot is unchanged; otherwise a successful
retriever result is installed as the new snapshot before the send phase;
and a retriever error is returned immediately, for every transport, with
the client (and so the snapshot) unchanged. -/
theorem doRequest_token_spec (c : BaseClient) (transport : Transport) (boundary : String)
    (now : Int) (p : RequestParams) (tc : Context)
    (hctx : c.tokenContext = some tc) :
    (now + c.tokenExpireWindow < tc.startTime + tc.expiresIn →
      DoRequest c transport boundary now p =
        (c, doRequestSendResult c transport boundary p) ∧
      (∀ r, DoRequest { c with tokenRetriever := r } transport boundary now p =
        ({ c with tokenRetriever := r },
         doRequestSendResult c transport boundary p))) ∧
    (tc.startTime + tc.expiresIn ≤ now + c.tokenExpireWindow →
      (∀ ctx, c.tokenRetriever = Except.ok ctx →
        DoRequest c transport boundary now p =
          ({ c with tokenContext := some ctx },
           doRequestSendResult { c with tokenContext := some ctx } transport boundary p)) ∧
      (∀ e, c.tokenRetriever = Except.error e →
        ∀ transport', DoRequest c transport' boundary now p = (c, Except.error e))) := by
  constructor
  · intro hfresh
    constructor
    · simp only [DoRequest, hctx, Option.getD_some]
      rw [if_neg (not_le.mpr hfresh)]
    · intro r
      simp only [DoRequest, hctx, Option.getD_some]
      rw [if_neg (not_le.mpr hfresh)]
      refine congrArg (Prod.mk _) ?_
      exact doRequestSendResult_congr _ c transport boundary p hctx.symm rfl rfl
  · intro hstale
    constructor
    · intro ctx hret
      simp only [DoRequest, hctx, Option.getD_some]
      rw [if_pos hstale, hret]
    · intro e hret transport'
      simp only [DoRequest, hctx, Option.getD_some]
      rw [if_pos hstale, hret]

/-- C1 witness: with a stale snapshot and a failing retriever, DoRequest
surfaces the retrieval error with the client unchanged. -/
theorem doRequest_token_spec_witness :
    DoRequest staleClient noTransport "b" 1000 emptyParams =
      (staleClient, Except.error "boom") := by
  have h := (doRequest_token_spec staleClient noTransport "b" 1000 emptyParams
      { accessToken := "t0", startTime := 0, expiresIn := 10 } rfl).2
  exact (h (by decide)).2 "boom" rfl noTransport

/-- C9: with headers declaring `multipart/form-data`, the request build
delegates to multipart construction; that construction fails (and the
send phase sends nothing, failing identically for every transport) when
the body is not shaped as form data; otherwise the built request's body
carries the supplied byte stream in full between the boundary delimiters
of a single file part, and its content type is the boundary-qualified
multipart value. -/
theorem multipart_spec (c : BaseClient) (transport : Transport) (boundary : String)
    (p : RequestParams)
    (hlen : p.headers.length ≠ 0)
    (hct : headerGetD p.headers "Content-Type" = "multipart/form-data") :
    buildRequestForParams c boundary p = makeFormRequest c boundary p ∧
    ((∀ k f s, p.body ≠ some (Body.formData k f s)) →
      makeFormRequest c boundary p = Except.error "bad request of form data" ∧
      doRequestSendResult c transport boundary p =
        Except.error "bad request of form data") ∧
    (∀ k f s, p.body = some (Body.formData k f s) →
      ∀ r, makeFormRequest c boundary p = Except.ok r →
        r.body = some (multipartBody boundary k f s) ∧
        multipartBody boundary k f s =
          ("--" ++ boundary ++ "\r\n" ++
           "Content-Disposition: form-data; name=\"" ++ escapeQuotes k ++
           "\"; filename=\"" ++ escapeQuotes f ++ "\"\r\n" ++
           "Content-Type: application/octet-stream\r\n\r\n") ++
          (s ++ ("\r\n--" ++ boundary ++ "--\r\n")) ∧
        headerGet r.header "Content-Type" = some (formDataContentType boundary) ∧
        formDataContentType boundary =
          "multipart/form-data; boundary=" ++
            (if goContainsAny boundary "()<>@,;:\\\"/[]?= " = true then
              "\"" ++ boundary ++ "\""
             else boundary)) := by
  have hbr : buildRequestForParams c boundary p = makeFormRequest c boundary p := by
    simp only [buildRequestForParams]
    rw [if_pos ⟨hlen, hct⟩]
  refine ⟨hbr, ?_, ?_⟩
  · intro hnot
    have hmf : makeFormRequest c boundary p = Except.error "bad request of form data" := by
      cases pb : p.body with
      | none => simp [makeFormRequest, pb]
      | some b =>
        cases b with
        | formData k f s => exact absurd pb (hnot k f s)
        | bytes s => simp [makeFormRequest, pb]
        | methodMarshaler m => simp [makeFormRequest, pb]
        | jsonValue j => simp [makeFormRequest, pb]
    refine ⟨hmf, ?_⟩
    simp only [doRequestSendResult]
    rw [hbr, hmf]
  · intro k f s pb r hr
    simp only [makeFormRequest, pb, NewRequest] at hr
    injection hr with h
    subst h
    refine ⟨rfl, ?_, ?_, rfl⟩
    · simp only [multipartBody, strAppendAssoc]
    · exact headerGet_set_self _ _ _

/-- C9 witness: the constructed multipart request carries the stream
bytes in its body and a boundary-qualified content type. -/
theorem multipart_spec_witness :
    (makeFormRequest hostClient "BND" formParams).map
      (fun r => (r.body, headerGet r.header "Content-Type")) =
      Except.ok (some (multipartBody "BND" "file" "f.txt" "DATA"),
                 some "multipart/form-data; boundary=BND") := by
  have h := (multipart_spec hostClient noTransport "BND" formParams
    (by decide) (by decide)).2.2
  cases hres : makeFormRequest hostClient "BND" formParams with
  | error e =>
    simp [makeFormRequest, formParams, NewRequest] at hres
  | ok r =>
    obtain ⟨hb, -, hctt, hfm⟩ := h "file" "f.txt" "DATA" rfl r hres
    have hcomp : (r.body, headerGet r.header "Content-Type") =
        (some (multipartBody "BND" "file" "f.txt" "DATA"),
         (some "multipart/form-data; boundary=BND" : Option String)) := by
      rw [hb, hctt, hfm]
      decide
    exact congrArg Except.ok hcomp


/-- C8 witness: a request built with no caller headers carries the bearer
token, the default JSON content type, and zeroed counters. -/
theorem newRequest_spec_witness :
    (NewRequest tokenClient "GET" "https://x.test/p" none []).map
      (fun r => (headerGet r.header "Authorization",
                 headerGet r.header "Content-Type", r.numAttempts)) =
      Except.ok (some "Bearer tok123", some "application/json", 0) := by
  have h := newRequest_spec tokenClient "GET" "https://x.test/p" none [] rfl rfl
  cases hres : NewRequest tokenClient "GET" "https://x.test/p" none [] with
  | error e =>
    simp only [NewRequest] at hres
    exact Except.noConfusion hres
  | ok r =>
    obtain ⟨h1, -, -, -, -, h6, -, -, -, h10, -⟩ := h r hres
    have hcomp : (headerGet r.header "Authorization",
        headerGet r.header "Content-Type", r.numAttempts) =
        ((some "Bearer tok123" : Option String),
         (some "application/json" : Option String), (0 : Nat)) := by
      rw [h6 { accessToken := "tok123", startTime := 0, expiresIn := 100 } rfl (by decide),
        h10 rfl, h1]
      decide
    exact congrArg Except.ok hcomp

end Services

namespace Services

example : goPathJoin ["acme", "catalog", "datasets"] = "acme/catalog/datasets" := by decide

example : goPathJoin ["acme", "system/config"] = "acme/system/config" := by decide

example : goContains "acme/system/config" "system" = true := by decide

example : goContains "acme/catalog/datasets" "system" = false := by decide

example : goStartsWith "/system/foo" "/system/" = true := by decide

example : goPathClean "/a/../b//c/./d" = "/b/c/d" := by decide

end Services
